import Mathlib

/-!
# Verification of the PDF-to-DOCX conversion core

Shallow embedding of the job lifecycle orchestrator and the document
structure extraction pipeline of the `backend/app` package, together with
theorems settling the specification claims about them.

Conventions:
* Python dicts with string keys are embedded as association lists
  `List (String × PyVal)`; Python `None` is the value `PyVal.none`, so that
  `key in job` (key presence) and `value is not None` stay distinct, exactly
  as in the source.
* Python real arithmetic (page geometry, normalization) is embedded over `ℚ`.
* Machine-level failure (`AttributeError`, `HTTPException`) is embedded with
  an explicit outcome type; external capabilities (PyMuPDF page data, the
  vendor JSON decoder) are passed in as data or as function parameters.
-/

/-- `JobStatus` from `app/models/schemas.py` (lines 13-19).  The enum has
exactly the four members below; there is no `CANCELLED` member. -/
inductive JobStatus where
  | pending
  | processing
  | completed
  | failed
deriving DecidableEq, Repr

/-- `DocumentType` from `app/services/pdf_service.py` (lines 20-25). -/
inductive DocumentType where
  | native
  | scanned
  | mixed
deriving DecidableEq, Repr

/-- Values stored in a job record dict (`JobManager._jobs` entries).
`PyVal.none` embeds Python `None`; `settings` embeds the settings dict
literal built in `convert.py` (keys `ocr_enabled`, `ocr_provider`,
`language`); `time` embeds a `datetime` as an abstract tick. -/
inductive PyVal where
  | none
  | bool (b : Bool)
  | int (n : ℤ)
  | str (s : String)
  | status (s : JobStatus)
  | docType (d : DocumentType)
  | time (t : ℕ)
  | settings (ocr_enabled : Bool) (ocr_provider : String) (language : String)
deriving DecidableEq, Repr

/-- Python `key in dict`. -/
def containsKey (d : List (String × PyVal)) (k : String) : Bool :=
  d.any (fun kv => kv.1 == k)

/-- Python `dict.get(key)`: the value at `k`, if the key is present. -/
def lookupKey (d : List (String × PyVal)) (k : String) : Option PyVal :=
  (d.find? (fun kv => kv.1 == k)).map (fun kv => kv.2)

/-- Python `d[k] = v`: replace the binding when the key is present,
append it otherwise. -/
def assign (d : List (String × PyVal)) (k : String) (v : PyVal) :
    List (String × PyVal) :=
  if containsKey d k then
    d.map (fun kv => if kv.1 == k then (k, v) else kv)
  else
    d ++ [(k, v)]

/-- The job dict built by `JobManager.create_job`
(`app/services/job_manager.py` lines 30-49), with its exact key set. -/
def create_job_dict (job_id filename : String) (file_size : ℤ)
    (file_path : String) (settings_data : PyVal) (now : ℕ) :
    List (String × PyVal) :=
  [("job_id", PyVal.str job_id),
   ("status", PyVal.status JobStatus.pending),
   ("progress", PyVal.int 0),
   ("message", PyVal.str "Queued"),
   ("filename", PyVal.str filename),
   ("file_size", PyVal.int file_size),
   ("file_path", PyVal.str file_path),
   ("pages_total", PyVal.none),
   ("pages_processed", PyVal.int 0),
   ("document_type", PyVal.none),
   ("download_url", PyVal.none),
   ("output_path", PyVal.none),
   ("created_at", PyVal.time now),
   ("completed_at", PyVal.none),
   ("processing_time_ms", PyVal.none),
   ("settings", settings_data)]

/-- One iteration of the merge loop in `JobManager.update_job`
(lines 67-69): `if value is not None and key in job: job[key] = value`. -/
def update_step (j : List (String × PyVal)) (kv : String × PyVal) :
    List (String × PyVal) :=
  if kv.2 ≠ PyVal.none ∧ containsKey j kv.1 then assign j kv.1 kv.2 else j

/-- Line 72 of `job_manager.py`:
`kwargs.get("status") in [JobStatus.COMPLETED, JobStatus.FAILED]`. -/
def terminalKwarg (kwargs : List (String × PyVal)) : Bool :=
  match lookupKey kwargs "status" with
  | some (PyVal.status s) => s == JobStatus.completed || s == JobStatus.failed
  | _ => false

/-- `JobManager.update_job` (lines 61-75) acting on a present job record:
merge the non-`None` kwargs whose keys exist, then stamp `completed_at`
when the `status` kwarg is COMPLETED or FAILED.  No other validation is
performed. -/
def update_job_fields (job : List (String × PyVal))
    (kwargs : List (String × PyVal)) (now : ℕ) : List (String × PyVal) :=
  let merged := kwargs.foldl update_step job
  if terminalKwarg kwargs then assign merged "completed_at" (PyVal.time now)
  else merged

/-- A PyMuPDF rectangle, as used via `rect.width` / `rect.height`
(`pdf_service.py`).  Geometry is embedded over `ℚ`. -/
structure FitzRect where
  width : ℚ
  height : ℚ
deriving DecidableEq, Repr

/-- The data `PDFService.analyze` reads from one page through the decoder
capability: the output of `page.get_text("text")`, the list returned by
`page.get_images(full=True)` paired with each image's placement rectangles
from `page.get_image_rects` (an image whose rect lookup raised and was
skipped by the `except: pass` contributes an empty rect list), the page
rect and rotation. -/
structure PageData where
  text : String
  images : List (List FitzRect)
  width : ℚ
  height : ℚ
  rotation : ℤ
deriving DecidableEq, Repr

/-- `PDFService.MIN_CHARS_FOR_TEXT_PAGE` (line 111). -/
def MIN_CHARS_FOR_TEXT_PAGE : ℕ := 50

/-- Python `str.strip()`: remove leading and trailing whitespace. -/
def pyStrip (s : String) : String :=
  ⟨((s.data.dropWhile Char.isWhitespace).reverse.dropWhile
      Char.isWhitespace).reverse⟩

/-- Lines 149-150: `text = page.get_text("text").strip(); char_count = len(text)`. -/
def charCount (p : PageData) : ℕ := (pyStrip p.text).length

/-- Line 154: `image_count = len(image_list)`. -/
def imageCount (p : PageData) : ℕ := p.images.length

/-- `PDFService._is_scanned_page` (lines 211-236): false when the page has
no images, otherwise true exactly when some placement rectangle of some
image satisfies `img_area / page_area > 0.8`. -/
def is_scanned_page (p : PageData) : Bool :=
  if p.images.isEmpty then false
  else
    p.images.any (fun rects =>
      rects.any (fun r =>
        decide ((0.8 : ℚ) < r.width * r.height / (p.width * p.height))))

/-- Line 158: `has_text = char_count >= self.MIN_CHARS_FOR_TEXT_PAGE`. -/
def pageHasText (p : PageData) : Bool :=
  decide (MIN_CHARS_FOR_TEXT_PAGE ≤ charCount p)

/-- Lines 162-164:
`needs_ocr = not has_text and (image_count > 0 or self._is_scanned_page(page))`. -/
def pageNeedsOcr (p : PageData) : Bool :=
  !pageHasText p && (decide (0 < imageCount p) || is_scanned_page p)

/-- The per-page record built in `analyze` (lines 171-181). -/
structure PageInfo where
  page_number : ℕ
  width : ℚ
  height : ℚ
  has_text : Bool
  char_count : ℕ
  image_count : ℕ
  needs_ocr : Bool
  rotation : ℤ
deriving DecidableEq, Repr

/-- The aggregate of `PDFAnalysis` computed by `analyze` (lines 196-206);
file metadata fields are not modelled. -/
structure PDFAnalysis where
  total_pages : ℕ
  document_type : DocumentType
  needs_ocr : Bool
  pages_with_text : ℕ
  pages_needing_ocr : ℕ
  total_images : ℕ
  pages : List PageInfo
deriving DecidableEq, Repr

/-- The document-type decision of `analyze` (lines 186-191). -/
def docTypeOf (pages_needing_ocr total_pages : ℕ) : DocumentType :=
  if pages_needing_ocr = 0 then DocumentType.native
  else if pages_needing_ocr = total_pages then DocumentType.scanned
  else DocumentType.mixed

/-- `PDFService.analyze` (lines 121-206) over the page data read from the
decoder: per-page flags, the counters accumulated by the loop, and the
aggregated document type. -/
def analyze (pages : List PageData) : PDFAnalysis :=
  let infos := pages.enum.map (fun pr =>
    { page_number := pr.1 + 1
      width := pr.2.width
      height := pr.2.height
      has_text := pageHasText pr.2
      char_count := charCount pr.2
      image_count := imageCount pr.2
      needs_ocr := pageNeedsOcr pr.2
      rotation := pr.2.rotation : PageInfo })
  let needing := pages.countP pageNeedsOcr
  { total_pages := pages.length
    document_type := docTypeOf needing pages.length
    needs_ocr := decide (0 < needing)
    pages_with_text := pages.countP pageHasText
    pages_needing_ocr := needing
    total_images := (pages.map imageCount).sum
    pages := infos }

/-- Python `int()` applied to a rational value: truncation toward zero
(`Int.div` is T-division, matching CPython). -/
def pyInt (q : ℚ) : ℤ := Int.tdiv q.num q.den

/-- `PDFService._normalize_bbox` (lines 465-478): proportional scaling of
each coordinate into the 0-1000 space, truncated with `int()`.  Note that
the source performs no clamping. -/
def normalize_bbox (bbox : ℚ × ℚ × ℚ × ℚ) (page_width page_height : ℚ) :
    ℤ × ℤ × ℤ × ℤ :=
  (pyInt (bbox.1 / page_width * 1000),
   pyInt (bbox.2.1 / page_height * 1000),
   pyInt (bbox.2.2.1 / page_width * 1000),
   pyInt (bbox.2.2.2 / page_height * 1000))

/-- An item of the `elements` list of a recognition response, with the
fields read through `item.get(...)` in `pdf_service._extract_with_ocr`
(lines 432-441); a field is `Option.none` when the key is absent. -/
structure OCRItem where
  type : Option String
  content : Option String
  bbox : Option (ℤ × ℤ × ℤ × ℤ)
  confidence : Option ℚ
deriving DecidableEq, Repr

/-- `ExtractedElement` from `pdf_service.py` (lines 65-76); the `style` and
`metadata` dicts are not modelled. -/
structure ExtractedElement where
  id : String
  type : String
  content : String
  bbox : ℤ × ℤ × ℤ × ℤ
  page_number : ℕ
  confidence : ℚ
deriving DecidableEq, Repr

/-- Construction of one element from one recognition item
(`_extract_with_ocr` lines 433-441): defaults `paragraph`, `""`,
`(0,0,0,0)` and `0.9`; the bbox from the item is used as supplied. -/
def ocrItemToElement (page_number idx : ℕ) (item : OCRItem) :
    ExtractedElement :=
  { id := "p" ++ toString page_number ++ "_e" ++ toString idx
    type := item.type.getD "paragraph"
    content := item.content.getD ""
    bbox := item.bbox.getD (0, 0, 0, 0)
    page_number := page_number
    confidence := item.confidence.getD 0.9 }

/-- The key order used by `elements.sort(key=lambda e: (e.bbox[1], e.bbox[0]))`
(lines 401 and 445): lexicographic on (y_min, x_min). -/
def elementOrderLe (a b : ExtractedElement) : Bool :=
  decide (a.bbox.2.1 < b.bbox.2.1 ∨
    (a.bbox.2.1 = b.bbox.2.1 ∧ a.bbox.1 ≤ b.bbox.1))

/-- Stable insertion used to embed Python `list.sort` (a stable ascending
sort by key). -/
def stableInsert (e : ExtractedElement) :
    List ExtractedElement → List ExtractedElement
  | [] => [e]
  | x :: xs => if elementOrderLe e x then e :: x :: xs else x :: stableInsert e xs

/-- Stable ascending sort by `(y_min, x_min)`, embedding
`elements.sort(key=lambda e: (e.bbox[1], e.bbox[0]))`. -/
def sortElements : List ExtractedElement → List ExtractedElement
  | [] => []
  | x :: xs => stableInsert x (sortElements xs)

/-- The element list built by `_extract_with_ocr` (lines 430-445) from a
recognition result: one element per item, in order, then the positional
sort.  No geometric clamping is applied anywhere on this path. -/
def extract_with_ocr_elements (page_number : ℕ) (items : List OCRItem) :
    List ExtractedElement :=
  sortElements (items.enum.map (fun pr => ocrItemToElement page_number pr.1 pr.2))

/-- The fields of a decoded recognition JSON payload read by
`DeepSeekOCR._parse` (`app/services/ocr/deepseek.py` lines 124-130), each
optional because the source reads them with `dict.get`. -/
structure OCRJson where
  elements : Option (List OCRItem)
  language : Option String
deriving DecidableEq, Repr

/-- The dict returned by `DeepSeekOCR._parse`: on success it carries
`elements`, `language` and `raw_text` and no `error`; on a JSON decode
failure it carries an empty `elements`, no `raw_text` and the error note. -/
structure ParsedOCR where
  elements : List OCRItem
  language : Option String
  raw_text : Option String
  error : Option String
deriving DecidableEq, Repr

/-- The code-fence stripping of `DeepSeekOCR._parse` (lines 113-117):
strip whitespace; if the content starts with a fence, keep the segment
between the first two fences and drop a leading `json` tag. -/
def strip_code_fences (content0 : String) : String :=
  let content := pyStrip content0
  if content.startsWith "```" then
    let c := (content.splitOn "```").getD 1 ""
    if c.startsWith "json" then c.drop 4 else c
  else content

/-- `DeepSeekOCR._parse` (lines 111-130).  The `json.loads` call is the
vendor-format decoder, passed in as a function returning `Option.none`
exactly when the payload is non-parseable (the `json.JSONDecodeError`
branch of the source). -/
def deepseek_parse (json_loads : String → Option OCRJson) (content : String) :
    ParsedOCR :=
  match json_loads (strip_code_fences content) with
  | Option.none =>
      { elements := [], language := Option.none, raw_text := Option.none,
        error := some "Parse error" }
  | some data =>
      { elements := data.elements.getD []
        language := data.language
        raw_text := some (String.intercalate " "
          ((data.elements.getD []).map (fun e => e.content.getD "")))
        error := Option.none }

/-- The entries of the plain dict `DeepSeekOCR.process_image` returns
(lines 94-99): the `_parse` result plus the timing and provider entries
added on lines 96-97.  Within `deepseek.py` these entries are only ever
read by subscript; a Python dict exposes no attributes for them (see
`getattr_elements` below for the attribute access performed by the
caller in `pdf_service.py`). -/
structure OCRResult where
  elements : List OCRItem
  language : Option String
  raw_text : Option String
  error : Option String
  processing_time_ms : ℕ
  provider : String
deriving DecidableEq, Repr

/-- `DeepSeekOCR.process_image`, post-response portion (lines 94-99). -/
def process_image_result (json_loads : String → Option OCRJson)
    (content : String) (elapsed : ℕ) : OCRResult :=
  let p := deepseek_parse json_loads content
  { elements := p.elements, language := p.language, raw_text := p.raw_text,
    error := p.error, processing_time_ms := elapsed,
    provider := "DeepSeek VL2" }

/-- The OCR-related settings read by the provider factory
(`app/config.py` lines 29-30): API keys default to the empty string, and
Python truthiness makes a key configured exactly when it is non-empty. -/
structure OCRSettings where
  mistral_api_key : String
  deepseek_api_key : String
deriving DecidableEq, Repr

/-- The closed set of provider implementations dispatched by
`app/services/ocr/factory.py`. -/
inductive OCRProviderImpl where
  | mistral
  | deepseek
  | surya
deriving DecidableEq, Repr

/-- The auto-selection of `get_ocr_provider` (factory.py lines 10-16):
first configured key wins, `"surya"` otherwise. -/
def resolve_auto (s : OCRSettings) : String :=
  if s.mistral_api_key ≠ "" then "mistral"
  else if s.deepseek_api_key ≠ "" then "deepseek"
  else "surya"

/-- `get_ocr_provider` (factory.py lines 6-30): resolve `"auto"` via the
keys, then dispatch on the provider name, every unknown name falling to
the final `else` (Surya) branch. -/
def get_ocr_provider (provider_type : String) (s : OCRSettings) :
    OCRProviderImpl :=
  let pt := if provider_type = "auto" then resolve_auto s else provider_type
  if pt = "mistral" then OCRProviderImpl.mistral
  else if pt = "deepseek" then OCRProviderImpl.deepseek
  else OCRProviderImpl.surya

/-- The fixed priority order the `"auto"` strategy walks through
(factory.py lines 11-14): Mistral first, then DeepSeek. -/
def auto_priority : List OCRProviderImpl :=
  [OCRProviderImpl.mistral, OCRProviderImpl.deepseek]

/-- Whether a variant counts as credential-configured under the given
settings, per the factory key checks; the Surya fallback needs none. -/
def credentials_configured (s : OCRSettings) : OCRProviderImpl → Bool
  | OCRProviderImpl.mistral => s.mistral_api_key != ""
  | OCRProviderImpl.deepseek => s.deepseek_api_key != ""
  | OCRProviderImpl.surya => true

/-- Modelled from the spec: the Mistral and Surya provider modules are not
among the provided sources (only `deepseek.py` is).  Per the spec, Surya is
the local/offline fallback requiring no credentials, while Mistral, like
DeepSeek (whose `initialize` raises `ValueError` without an API key,
deepseek.py lines 45-47), requires its API key. -/
def requires_credentials : OCRProviderImpl → Bool
  | OCRProviderImpl.mistral => true
  | OCRProviderImpl.deepseek => true
  | OCRProviderImpl.surya => false

/-- Attribute lookup on the `JobStatus` enum of `schemas.py`: exactly the
four declared members resolve; any other attribute raises
`AttributeError` in Python. -/
def jobStatusAttr : String → Option JobStatus
  | "PENDING" => some JobStatus.pending
  | "PROCESSING" => some JobStatus.processing
  | "COMPLETED" => some JobStatus.completed
  | "FAILED" => some JobStatus.failed
  | _ => Option.none

/-- The methods the `JobManager` class of `job_manager.py` defines
(lines 18-139).  `cancel_job`, `retry_job` and `get_job_statistics` are
not among them. -/
def job_manager_methods : List String :=
  ["__init__", "create_job", "get_job", "get_raw_job", "update_job",
   "list_jobs", "delete_job", "cleanup_old_jobs", "_to_response"]

/-- Outcome of a route handler: a value, an `HTTPException(status_code,
detail)`, or an uncaught Python `AttributeError` on `obj.attr`. -/
inductive PyOutcome (α : Type) where
  | ok (a : α)
  | httpError (status_code : ℕ) (detail : String)
  | attributeError (obj attr : String)
deriving DecidableEq, Repr

/-- `cancel_job` route (`app/api/routes/jobs.py` lines 78-104) over a job
store mapping ids to statuses.  The status list on line 90 is evaluated
left to right, so the `JobStatus.CANCELLED` lookup runs before any
comparison; the later `job_manager.cancel_job` call is likewise an
attribute lookup on `JobManager`.  Branches for calls on methods that do
exist return `.ok` with the observed status. -/
def cancel_job_route (store : String → Option JobStatus) (job_id : String) :
    PyOutcome JobStatus :=
  match store job_id with
  | Option.none => PyOutcome.httpError 404 "Job not found"
  | some st =>
    match jobStatusAttr "COMPLETED" with
    | Option.none => PyOutcome.attributeError "JobStatus" "COMPLETED"
    | some c =>
      match jobStatusAttr "FAILED" with
      | Option.none => PyOutcome.attributeError "JobStatus" "FAILED"
      | some f =>
        match jobStatusAttr "CANCELLED" with
        | Option.none => PyOutcome.attributeError "JobStatus" "CANCELLED"
        | some x =>
          if st = c ∨ st = f ∨ st = x then
            PyOutcome.httpError 409 "Cannot cancel job in current state"
          else if job_manager_methods.contains "cancel_job" then
            PyOutcome.ok st
          else PyOutcome.attributeError "JobManager" "cancel_job"

/-- `retry_job` route (`jobs.py` lines 144-170): 404 when the job is
missing, `HTTPException(400, ...)` when the status is not FAILED, then the
`job_manager.retry_job` attribute lookup. -/
def retry_job_route (store : String → Option JobStatus) (job_id : String) :
    PyOutcome String :=
  match store job_id with
  | Option.none => PyOutcome.httpError 404 "Job not found"
  | some st =>
    match jobStatusAttr "FAILED" with
    | Option.none => PyOutcome.attributeError "JobStatus" "FAILED"
    | some f =>
      if st ≠ f then PyOutcome.httpError 400 "Only failed jobs can be retried"
      else if job_manager_methods.contains "retry_job" then
        PyOutcome.ok "new job id"
      else PyOutcome.attributeError "JobManager" "retry_job"

/-- A concrete job store holding one job per relevant status, used to
evaluate the route models at explicit inputs. -/
def demoStore : String → Option JobStatus := fun id =>
  if id = "job-pending" then some JobStatus.pending
  else if id = "job-processing" then some JobStatus.processing
  else if id = "job-completed" then some JobStatus.completed
  else if id = "job-failed" then some JobStatus.failed
  else Option.none

/-- The shape of the value `_extract_with_ocr` receives back from
`ocr_provider.process_image` (`pdf_service.py` line 425): either an
object exposing an `elements` attribute (what line 432 expects), or a
plain dict — which is what `DeepSeekOCR.process_image` actually returns,
since `_parse` builds and returns dict literals (deepseek.py lines 94-99
and 111-130). -/
inductive OCRProcessValue where
  | objWithAttrs (elements : List OCRItem)
  | dict (d : OCRResult)
deriving DecidableEq, Repr

/-- Python attribute access `ocr_result.elements` as performed on
`pdf_service.py` line 432: it succeeds on an object exposing the
attribute and raises `AttributeError` on a plain dict instance, whatever
entries the dict holds. -/
def getattr_elements : OCRProcessValue → PyOutcome (List OCRItem)
  | OCRProcessValue.objWithAttrs els => PyOutcome.ok els
  | OCRProcessValue.dict _ => PyOutcome.attributeError "dict" "elements"

/-- The element-building part of `_extract_with_ocr` (`pdf_service.py`
lines 430-445) applied to the value `process_image` returned: the
`ocr_result.elements` attribute access of line 432, then one element per
item and the positional sort.  `pdf_service.py` has no handler around
this code, so a raised `AttributeError` propagates out of
`_extract_with_ocr` and `extract_structure`. -/
def extract_with_ocr_page (page_number : ℕ)
    (ocr_result : OCRProcessValue) : PyOutcome (List ExtractedElement) :=
  match getattr_elements ocr_result with
  | PyOutcome.ok items =>
      PyOutcome.ok (extract_with_ocr_elements page_number items)
  | PyOutcome.httpError c d => PyOutcome.httpError c d
  | PyOutcome.attributeError o a => PyOutcome.attributeError o a

/-- `SYNC_PAGE_LIMIT` (`app/api/routes/convert.py` line 20). -/
def SYNC_PAGE_LIMIT : ℕ := 20

/-- The abstract outcome of the pipeline body inside `process_pdf`
(analysis, extraction, DOCX generation): success with a duration, or a
raised exception with a message. -/
inductive PipelineBody where
  | success (time_ms : ℕ)
  | failure (msg : String)
deriving DecidableEq, Repr

/-- What `process_pdf` (convert.py lines 205-302) returns and records for
an existing job: the whole body runs inside `try/except Exception`, so the
function never raises; success records COMPLETED (progress 100), failure
records FAILED and returns a non-success dict. -/
structure ProcessResult where
  success : Bool
  job_status : JobStatus
deriving DecidableEq, Repr

/-- `process_pdf` over the abstract body outcome. -/
def process_pdf_model : PipelineBody → ProcessResult
  | PipelineBody.success _ => { success := true, job_status := JobStatus.completed }
  | PipelineBody.failure _ => { success := false, job_status := JobStatus.failed }

/-- What `convert_pdf` does after creating the job (convert.py lines
94-118): the status put in the HTTP response, whether `process_pdf` was
enqueued as a background task, and the job status recorded at return
time. -/
structure ConvertOutcome where
  response_status : JobStatus
  enqueued_background : Bool
  job_status : JobStatus
deriving DecidableEq, Repr

/-- The synchronous-versus-background branch of `convert_pdf` (lines
94-118).  On the sync path a successful result returns COMPLETED; since
`process_pdf` never raises, a failed result falls through to the
background branch, which enqueues `process_pdf` again and answers
PENDING.  Above the limit the untouched job is still PENDING. -/
def convert_after_create (page_count : ℕ) (body : PipelineBody) :
    ConvertOutcome :=
  if page_count ≤ SYNC_PAGE_LIMIT then
    let result := process_pdf_model body
    if result.success then
      { response_status := JobStatus.completed, enqueued_background := false,
        job_status := result.job_status }
    else
      { response_status := JobStatus.pending, enqueued_background := true,
        job_status := result.job_status }
  else
    { response_status := JobStatus.pending, enqueued_background := true,
      job_status := JobStatus.pending }

/-! ## Association-list lemmas for the job store -/

theorem containsKey_keys (k : String) :
    ∀ d : List (String × PyVal),
      containsKey d k = (d.map Prod.fst).any (fun s => s == k)
  | [] => rfl
  | hd :: tl => by
      unfold containsKey
      rw [List.map_cons, List.any_cons, List.any_cons]
      have ih := containsKey_keys k tl
      unfold containsKey at ih
      rw [ih]

theorem find_map_assign (k : String) (v : PyVal) :
    ∀ d : List (String × PyVal), containsKey d k = true →
      (d.map (fun kv => if kv.1 == k then (k, v) else kv)).find?
        (fun kv => kv.1 == k) = some (k, v)
  | [], hc => by simp [containsKey] at hc
  | hd :: tl, hc => by
      simp only [List.map_cons]
      by_cases hk : hd.1 = k
      · rw [if_pos (by simp [hk] : (hd.1 == k) = true), List.find?_cons_of_pos]
        simp
      · have hc' : containsKey tl k = true := by
          simpa [containsKey, hk] using hc
        rw [if_neg (by simp [hk] : ¬(hd.1 == k) = true), List.find?_cons_of_neg]
        · exact find_map_assign k v tl hc'
        · simp [hk]

theorem find_append_single (k : String) (v : PyVal) :
    ∀ d : List (String × PyVal), containsKey d k = false →
      (d ++ [(k, v)]).find? (fun kv => kv.1 == k) = some (k, v)
  | [], _ => by
      rw [List.nil_append, List.find?_cons_of_pos]
      simp
  | hd :: tl, hc => by
      have hparts : ¬hd.1 = k ∧ containsKey tl k = false := by
        simpa [containsKey] using hc
      rw [List.cons_append, List.find?_cons_of_neg]
      · exact find_append_single k v tl hparts.2
      · simp [hparts.1]

theorem lookup_assign_self (d : List (String × PyVal)) (k : String) (v : PyVal) :
    lookupKey (assign d k v) k = some v := by
  unfold assign
  by_cases hc : containsKey d k
  · rw [if_pos hc]
    unfold lookupKey
    rw [find_map_assign k v d hc]
    rfl
  · rw [if_neg hc]
    unfold lookupKey
    rw [find_append_single k v d (by simpa using hc)]
    rfl

theorem find_map_assign_ne (k' k : String) (v : PyVal) (h : k' ≠ k) :
    ∀ d : List (String × PyVal),
      (d.map (fun kv => if kv.1 == k' then (k', v) else kv)).find?
        (fun kv => kv.1 == k) = d.find? (fun kv => kv.1 == k)
  | [] => rfl
  | hd :: tl => by
      simp only [List.map_cons]
      by_cases hk : hd.1 = k'
      · rw [if_pos (by simp [hk] : (hd.1 == k') = true),
          List.find?_cons_of_neg, List.find?_cons_of_neg]
        · exact find_map_assign_ne k' k v h tl
        · simp [hk, h]
        · simp [h]
      · rw [if_neg (by simp [hk] : ¬(hd.1 == k') = true)]
        by_cases hk2 : hd.1 = k
        · rw [List.find?_cons_of_pos, List.find?_cons_of_pos]
          · simp [hk2]
          · simp [hk2]
        · rw [List.find?_cons_of_neg, List.find?_cons_of_neg]
          · exact find_map_assign_ne k' k v h tl
          · simp [hk2]
          · simp [hk2]

theorem find_append_ne (k' k : String) (v : PyVal) (h : k' ≠ k) :
    ∀ d : List (String × PyVal),
      (d ++ [(k', v)]).find? (fun kv => kv.1 == k) =
        d.find? (fun kv => kv.1 == k)
  | [] => by
      rw [List.nil_append, List.find?_cons_of_neg]
      simp [h]
  | hd :: tl => by
      rw [List.cons_append]
      by_cases hk : hd.1 = k
      · rw [List.find?_cons_of_pos, List.find?_cons_of_pos]
        · simp [hk]
        · simp [hk]
      · rw [List.find?_cons_of_neg, List.find?_cons_of_neg]
        · exact find_append_ne k' k v h tl
        · simp [hk]
        · simp [hk]

theorem lookup_assign_ne (d : List (String × PyVal)) (k' k : String)
    (v : PyVal) (h : k' ≠ k) :
    lookupKey (assign d k' v) k = lookupKey d k := by
  unfold assign
  by_cases hc : containsKey d k'
  · rw [if_pos hc]
    unfold lookupKey
    rw [find_map_assign_ne k' k v h d]
  · rw [if_neg hc]
    unfold lookupKey
    rw [find_append_ne k' k v h d]

theorem keys_assign_of_contains (d : List (String × PyVal)) (k : String)
    (v : PyVal) (hc : containsKey d k = true) :
    (assign d k v).map Prod.fst = d.map Prod.fst := by
  unfold assign
  rw [if_pos hc, List.map_map]
  apply List.map_congr_left
  intro kv _
  by_cases hk : kv.1 = k <;> simp [Function.comp, hk]

theorem keys_update_step (j : List (String × PyVal)) (kv : String × PyVal) :
    (update_step j kv).map Prod.fst = j.map Prod.fst := by
  unfold update_step
  by_cases h : kv.2 ≠ PyVal.none ∧ containsKey j kv.1
  · rw [if_pos h]
    exact keys_assign_of_contains j kv.1 kv.2 h.2
  · rw [if_neg h]

theorem keys_foldl_update_step :
    ∀ (kwargs : List (String × PyVal)) (j : List (String × PyVal)),
      (kwargs.foldl update_step j).map Prod.fst = j.map Prod.fst
  | [], _ => rfl
  | kv :: rest, j => by
      rw [List.foldl_cons, keys_foldl_update_step rest (update_step j kv),
        keys_update_step]

theorem lookup_update_step_of_none (j : List (String × PyVal))
    (kv : String × PyVal) (k : String) (h : kv.1 = k → kv.2 = PyVal.none) :
    lookupKey (update_step j kv) k = lookupKey j k := by
  unfold update_step
  by_cases hc : kv.2 ≠ PyVal.none ∧ containsKey j kv.1
  · rw [if_pos hc]
    by_cases hk : kv.1 = k
    · exact absurd (h hk) hc.1
    · exact lookup_assign_ne j kv.1 k kv.2 hk
  · rw [if_neg hc]

theorem lookup_foldl_update_step :
    ∀ (kwargs : List (String × PyVal)) (j : List (String × PyVal)) (k : String),
      (∀ v, (k, v) ∈ kwargs → v = PyVal.none) →
      lookupKey (kwargs.foldl update_step j) k = lookupKey j k
  | [], _, _, _ => rfl
  | kv :: rest, j, k, h => by
      rw [List.foldl_cons,
        lookup_foldl_update_step rest (update_step j kv) k
          (fun v hv => h v (List.mem_cons_of_mem kv hv)),
        lookup_update_step_of_none j kv k]
      intro hk
      have hmem : (k, kv.2) ∈ kv :: rest := by
        rw [← hk]
        exact List.mem_cons_self kv rest
      exact h kv.2 hmem

/-! ## Structural lemmas for the page analyzer and provider factory -/

theorem is_scanned_page_any (p : PageData) :
    is_scanned_page p = p.images.any (fun rects =>
      rects.any (fun r =>
        decide ((0.8 : ℚ) < r.width * r.height / (p.width * p.height)))) := by
  unfold is_scanned_page
  by_cases he : p.images.isEmpty
  · rw [if_pos he, List.isEmpty_iff.mp he]
    rfl
  · rw [if_neg he]

theorem docTypeOf_iff (n t : ℕ) :
    (docTypeOf n t = DocumentType.native ↔ n = 0)
  ∧ (docTypeOf n t = DocumentType.scanned ↔ (n = t ∧ 0 < t))
  ∧ (docTypeOf n t = DocumentType.mixed ↔ (n ≠ 0 ∧ n ≠ t)) := by
  unfold docTypeOf
  split_ifs with h1 h2
  · exact ⟨⟨fun _ => h1, fun _ => rfl⟩,
      ⟨fun h => (nomatch h), fun h => ((by omega : False)).elim⟩,
      ⟨fun h => (nomatch h), fun h => absurd h1 h.1⟩⟩
  · exact ⟨⟨fun h => (nomatch h), fun h => absurd h h1⟩,
      ⟨fun _ => ⟨h2, by omega⟩, fun _ => rfl⟩,
      ⟨fun h => (nomatch h), fun h => absurd h2 h.2⟩⟩
  · exact ⟨⟨fun h => (nomatch h), fun h => absurd h h1⟩,
      ⟨fun h => (nomatch h), fun h => absurd h.1 h2⟩,
      ⟨fun _ => ⟨h1, h2⟩, fun _ => rfl⟩⟩

/-! ## Claim theorems -/

/-- C1: the claim states that every emitted bbox coordinate lies in
[0,1000] and that out-of-page geometry is clamped.  The code does not
clamp: `_normalize_bbox` scales proportionally without bounds, so a line
bbox reaching past the right edge of a 612x792 page normalizes to
x_max = 2000, outside [0,1000]; and the recognition path copies the
item bbox through unchanged, so an out-of-range vendor bbox is emitted
as-is.  This contradicts the `normalized 0-1000` documentation of the
`ExtractedElement.bbox` field in the source. -/
theorem bbox_out_of_range_propagated :
    normalize_bbox (0, 0, 1224, 792) 612 792 = (0, 0, 2000, 1000)
  ∧ ¬((2000 : ℤ) ≤ 1000)
  ∧ (extract_with_ocr_elements 1
      [{ type := some "paragraph", content := some "x",
         bbox := some (0, 0, 2000, 500), confidence := Option.none }]).map
      (fun e => e.bbox) = [(0, 0, 2000, 500)] := by
  refine ⟨?_, by decide, by decide⟩
  unfold normalize_bbox pyInt
  norm_num

/-- The settings dict passed by `convert_pdf` for a default upload. -/
def settingsVal : PyVal := PyVal.settings true "auto" "auto"

/-- A job exactly as `create_job` stores it. -/
def jobCreated : List (String × PyVal) :=
  create_job_dict "job-1" "a.pdf" 100 "storage/uploads/job-1/a.pdf"
    settingsVal 0

/-- The job after `update_job(job_id, progress=50)`. -/
def jobAt50 : List (String × PyVal) :=
  update_job_fields jobCreated [("progress", PyVal.int 50)] 1

/-- The job after a subsequent `update_job(job_id, progress=10)`. -/
def jobAt10 : List (String × PyVal) :=
  update_job_fields jobAt50 [("progress", PyVal.int 10)] 2

/-- C2 counterexample: `update_job` accepts a progress write of 10 right
after one of 50, and accepts 500, outside [0,100]; recorded progress is
neither validated, non-decreasing, nor kept within range. -/
theorem progress_backward_counterexample :
    lookupKey jobAt50 "progress" = some (PyVal.int 50)
  ∧ lookupKey jobAt10 "progress" = some (PyVal.int 10)
  ∧ lookupKey (update_job_fields jobCreated [("progress", PyVal.int 500)] 1)
      "progress" = some (PyVal.int 500)
  ∧ ¬((50 : ℤ) ≤ 10) ∧ ¬((500 : ℤ) ≤ 100) := by decide

/-- C2 (amended): `update_job` performs no validation of progress writes:
whenever a non-`None` progress value is supplied for an existing job, that
exact value is recorded, whether or not it is smaller than the previous
progress or outside [0,100]. -/
theorem update_job_no_progress_validation (job : List (String × PyVal))
    (v : PyVal) (now : ℕ) (hv : v ≠ PyVal.none)
    (hk : containsKey job "progress" = true) :
    lookupKey (update_job_fields job [("progress", v)] now) "progress" =
      some v := by
  unfold update_job_fields
  have hterm : terminalKwarg [("progress", v)] = false := by
    unfold terminalKwarg lookupKey
    rw [List.find?_cons_of_neg]
    · rfl
    · change ¬(("progress" : String) == "status") = true
      decide
  rw [if_neg (by simp [hterm])]
  show lookupKey (update_step job ("progress", v)) "progress" = some v
  unfold update_step
  rw [if_pos ⟨hv, hk⟩]
  exact lookup_assign_self job "progress" v

/-- Witness for C2 (amended) at a concrete job and value. -/
theorem update_job_no_progress_validation_witness :
    (PyVal.int 10 ≠ PyVal.none)
  ∧ containsKey jobAt50 "progress" = true
  ∧ lookupKey (update_job_fields jobAt50 [("progress", PyVal.int 10)] 2)
      "progress" = some (PyVal.int 10) :=
  ⟨by decide, by decide,
    update_job_no_progress_validation jobAt50 (PyVal.int 10) 2
      (by decide) (by decide)⟩

/-- C3: cancelling never reaches the claimed behavior.  The status check
on line 90 of `jobs.py` evaluates `JobStatus.CANCELLED`, which does not
exist in the enum, so cancel raises `AttributeError` (an HTTP 500) for
PENDING and PROCESSING jobs (instead of succeeding with CANCELLED) and
for COMPLETED jobs (instead of the claimed 409 Conflict). -/
theorem cancel_route_attribute_error :
    cancel_job_route demoStore "job-pending" =
      PyOutcome.attributeError "JobStatus" "CANCELLED"
  ∧ cancel_job_route demoStore "job-processing" =
      PyOutcome.attributeError "JobStatus" "CANCELLED"
  ∧ cancel_job_route demoStore "job-completed" =
      PyOutcome.attributeError "JobStatus" "CANCELLED" := by decide

/-- C4: retry on a FAILED job raises `AttributeError` because `JobManager`
defines no `retry_job` method, so no new job is ever created; and retry on
a non-FAILED job answers `HTTPException(400)`, not the claimed 409
Conflict. -/
theorem retry_route_attribute_error_and_bad_request :
    retry_job_route demoStore "job-failed" =
      PyOutcome.attributeError "JobManager" "retry_job"
  ∧ retry_job_route demoStore "job-completed" =
      PyOutcome.httpError 400 "Only failed jobs can be retried"
  ∧ (400 : ℕ) ≠ 409 := by decide

/-- C5: `document_type` is NATIVE iff no page needs recognition, SCANNED
(the spec name is RECOGNIZED) iff every page of a non-empty document needs
recognition, MIXED otherwise, and the empty document is NATIVE. -/
theorem document_type_classification (pages : List PageData) :
    ((analyze pages).document_type = DocumentType.native ↔
      (analyze pages).pages_needing_ocr = 0)
  ∧ ((analyze pages).document_type = DocumentType.scanned ↔
      ((analyze pages).pages_needing_ocr = (analyze pages).total_pages ∧
        0 < (analyze pages).total_pages))
  ∧ ((analyze pages).document_type = DocumentType.mixed ↔
      ((analyze pages).pages_needing_ocr ≠ 0 ∧
        (analyze pages).pages_needing_ocr ≠ (analyze pages).total_pages))
  ∧ (pages = [] → (analyze pages).document_type = DocumentType.native) := by
  have h := docTypeOf_iff (pages.countP pageNeedsOcr) pages.length
  refine ⟨h.1, h.2.1, h.2.2, ?_⟩
  intro he
  subst he
  rfl

/-- Witness for C5 at the empty document. -/
theorem document_type_classification_witness :
    (([] : List PageData) = []) ∧
      (analyze []).document_type = DocumentType.native :=
  ⟨rfl, (document_type_classification []).2.2.2 rfl⟩

/-- C6: the `"auto"` strategy returns the first variant of the fixed
priority order (Mistral, then DeepSeek) whose API key is configured, and
when no key is configured it returns the Surya fallback, which requires no
credentials, without raising. -/
theorem auto_provider_selection (s : OCRSettings) :
    get_ocr_provider "auto" s =
      ((auto_priority.find? (credentials_configured s)).getD
        OCRProviderImpl.surya)
  ∧ ((∀ pr ∈ auto_priority, credentials_configured s pr = false) →
      get_ocr_provider "auto" s = OCRProviderImpl.surya ∧
        requires_credentials OCRProviderImpl.surya = false) := by
  constructor
  · unfold get_ocr_provider resolve_auto auto_priority credentials_configured
    by_cases hm : s.mistral_api_key = ""
    · by_cases hd : s.deepseek_api_key = ""
      · simp [hm, hd]
      · simp [hm, hd]
    · simp [hm]
  · intro h
    have hm := h OCRProviderImpl.mistral (by simp [auto_priority])
    have hd := h OCRProviderImpl.deepseek (by simp [auto_priority])
    unfold credentials_configured at hm hd
    have hm2 : s.mistral_api_key = "" := by simpa using hm
    have hd2 : s.deepseek_api_key = "" := by simpa using hd
    constructor
    · unfold get_ocr_provider resolve_auto
      simp [hm2, hd2]
    · rfl

/-- Settings with no OCR API key configured. -/
def noKeySettings : OCRSettings :=
  { mistral_api_key := "", deepseek_api_key := "" }

/-- Witness for C6 with no credentials configured. -/
theorem auto_provider_selection_witness :
    (∀ pr ∈ auto_priority, credentials_configured noKeySettings pr = false)
  ∧ get_ocr_provider "auto" noKeySettings = OCRProviderImpl.surya
  ∧ requires_credentials OCRProviderImpl.surya = false :=
  ⟨by decide, (auto_provider_selection noKeySettings).2 (by decide)⟩

/-- C7: a pipeline failure on the synchronous path is recorded as FAILED
on the job, but is not surfaced to the caller and the job is re-enqueued:
since `process_pdf` swallows its exceptions, `convert_pdf` falls through
to the background branch, schedules `process_pdf` again and answers
PENDING, while the success path does return the terminal status inline. -/
theorem sync_failure_reenqueued_not_surfaced :
    convert_after_create 5 (PipelineBody.failure "analysis error") =
      { response_status := JobStatus.pending, enqueued_background := true,
        job_status := JobStatus.failed }
  ∧ convert_after_create 5 (PipelineBody.success 42) =
      { response_status := JobStatus.completed, enqueued_background := false,
        job_status := JobStatus.completed }
  ∧ (convert_after_create 5
      (PipelineBody.failure "analysis error")).response_status ≠
      (convert_after_create 5
        (PipelineBody.failure "analysis error")).job_status := by decide

/-- C8: the claim says a malformed recognition payload degrades so that
the page contributes zero elements instead of failing the job.  The parse
level does degrade as claimed: `_parse` catches the decode failure and
`process_image` returns, without raising, a dict whose elements list is
empty and tagged `Parse error`.  But `_extract_with_ocr` reads
`ocr_result.elements` by attribute access, and the value DeepSeek returns
is a plain dict, so the access raises `AttributeError`; the exception
escapes `pdf_service` to the job-level handler of `process_pdf`, which
records the whole job FAILED — the page never contributes its zero
elements. -/
theorem malformed_response_fails_job :
    (process_image_result (fun _ => Option.none) "this is not json"
      0).elements = []
  ∧ (process_image_result (fun _ => Option.none) "this is not json"
      0).error = some "Parse error"
  ∧ extract_with_ocr_page 1
      (OCRProcessValue.dict
        (process_image_result (fun _ => Option.none) "this is not json"
          0)) = PyOutcome.attributeError "dict" "elements"
  ∧ (process_pdf_model (PipelineBody.failure
      "AttributeError: dict object has no attribute elements")).job_status =
      JobStatus.failed :=
  ⟨rfl, rfl, rfl, rfl⟩

/-- C9: `has_text` holds exactly for char_count at least 50, and
`needs_ocr` holds exactly when the page lacks text and either has an image
or some image placement rectangle covers more than 80 percent of the page
area; in particular a text-bearing page never needs recognition. -/
theorem page_flags_characterization (p : PageData) :
    (pageHasText p = true ↔ MIN_CHARS_FOR_TEXT_PAGE ≤ charCount p)
  ∧ (pageNeedsOcr p = true ↔
      (charCount p < MIN_CHARS_FOR_TEXT_PAGE ∧
        (0 < imageCount p ∨ ∃ rects ∈ p.images, ∃ r ∈ rects,
          (0.8 : ℚ) < r.width * r.height / (p.width * p.height))))
  ∧ (MIN_CHARS_FOR_TEXT_PAGE ≤ charCount p → pageNeedsOcr p = false) := by
  refine ⟨by simp [pageHasText], ?_, ?_⟩
  · unfold pageNeedsOcr pageHasText
    rw [is_scanned_page_any]
    simp [List.any_eq_true, Nat.not_le]
  · intro h
    unfold pageNeedsOcr pageHasText
    simp [h]

/-- A page with 52 extractable characters and one full-page image. -/
def textPage : PageData :=
  { text := "abcdefghijklmnopqrstuvwxyzabcdefghijklmnopqrstuvwxyz"
    images := [[{ width := 612, height := 792 }]]
    width := 612
    height := 792
    rotation := 0 }

/-- Witness for C9: a page with 50 or more characters does not need
recognition even with a full-page image present. -/
theorem page_flags_characterization_witness :
    MIN_CHARS_FOR_TEXT_PAGE ≤ charCount textPage ∧
      pageNeedsOcr textPage = false :=
  ⟨by decide, (page_flags_characterization textPage).2.2 (by decide)⟩

/-- C10: `update_job` on an existing job record never adds a key (the key
list is preserved exactly); a field supplied as `None` or not named in the
update keeps its previous value (except for the `completed_at` stamp); and
an update whose status kwarg is COMPLETED or FAILED always stamps
`completed_at` with the current time. -/
theorem update_job_frame (job kwargs : List (String × PyVal)) (now : ℕ)
    (hca : containsKey job "completed_at" = true) :
    ((update_job_fields job kwargs now).map Prod.fst = job.map Prod.fst)
  ∧ (∀ k : String, (∀ v, (k, v) ∈ kwargs → v = PyVal.none) →
      (k = "completed_at" → terminalKwarg kwargs = false) →
      lookupKey (update_job_fields job kwargs now) k = lookupKey job k)
  ∧ (terminalKwarg kwargs = true →
      lookupKey (update_job_fields job kwargs now) "completed_at" =
        some (PyVal.time now)) := by
  have hkeys := keys_foldl_update_step kwargs job
  have hcm : containsKey (kwargs.foldl update_step job) "completed_at" = true := by
    rw [containsKey_keys, hkeys, ← containsKey_keys]
    exact hca
  refine ⟨?_, ?_, ?_⟩
  · unfold update_job_fields
    by_cases ht : terminalKwarg kwargs = true
    · rw [if_pos ht, keys_assign_of_contains _ _ _ hcm]
      exact hkeys
    · rw [if_neg ht]
      exact hkeys
  · intro k hnone hterm
    unfold update_job_fields
    by_cases ht : terminalKwarg kwargs = true
    · have hk : ¬(k = "completed_at") := fun he => by
        rw [hterm he] at ht
        exact absurd ht (by decide)
      rw [if_pos ht, lookup_assign_ne _ _ _ _ (fun he => hk he.symm)]
      exact lookup_foldl_update_step kwargs job k hnone
    · rw [if_neg ht]
      exact lookup_foldl_update_step kwargs job k hnone
  · intro ht
    unfold update_job_fields
    rw [if_pos ht]
    exact lookup_assign_self _ _ _

/-- A concrete update: new message, terminal status, and an explicit
`None` for pages_total. -/
def kwargsW : List (String × PyVal) :=
  [("message", PyVal.str "done"),
   ("status", PyVal.status JobStatus.completed),
   ("pages_total", PyVal.none)]

/-- Witness for C10 at a concrete job and kwargs. -/
theorem update_job_frame_witness :
    containsKey jobCreated "completed_at" = true
  ∧ (update_job_fields jobCreated kwargsW 5).map Prod.fst =
      jobCreated.map Prod.fst
  ∧ lookupKey (update_job_fields jobCreated kwargsW 5) "completed_at" =
      some (PyVal.time 5)
  ∧ lookupKey (update_job_fields jobCreated kwargsW 5) "pages_total" =
      lookupKey jobCreated "pages_total" := by
  have h := update_job_frame jobCreated kwargsW 5 (by decide)
  refine ⟨by decide, h.1, h.2.2 (by decide), ?_⟩
  refine h.2.1 "pages_total" ?_ (by decide)
  intro v hv
  simp [kwargsW] at hv
  exact hv
